import Mathlib

/-!
Shallow embedding of the audio encoding pipeline stage in
`src/libAvKys/Plugins/MultiSink/src/ndkmedia/src/audiostream.cpp`
(Webcamoid, NDK media backend).

The C++ file is modelled as executable Lean definitions:

* the channel-layout / sample-format lookup tables become association
  lists kept in the ascending-key order that `QMap` maintains, with the
  `QMap::value` / `QMap::key` access patterns translated literally
  (both return a default-constructed value, i.e. `0`, when the lookup
  misses);
* the single-slot frame accumulator (`m_frame`, `m_frameMutex`,
  `m_frameReady`) becomes explicit state passing over an
  `Option AkAudioPacket` slot; the bounded wait on the condition
  variable is modelled by an oracle argument saying whether a deposit
  arrived during the wait window (`none` = the wait timed out);
* the codec (`AMediaCodec_*` calls) is modelled by an environment
  record holding the results the codec returns this tick, and
  `encodeData` / `readPacket` become pure functions from that
  environment to the observable effects (submissions, copies,
  releases, emitted packets);
* machine arithmetic: `qRound` rounds half away from zero over exact
  rationals (the C++ evaluates the product in `double`; that
  floating-point rounding error is not modelled) and returns a 32-bit
  `int`, so a rounded value outside `[-2^31, 2^31)` makes the
  double-to-int conversion undefined behaviour, modelled as
  `Option.none`; the explicit `uint64_t(...)` conversion of that `int`
  at the `AMediaCodec_queueInputBuffer` call site is modelled as
  reduction modulo `2 ^ 64`.
-/

namespace AudioStreamModel

/-! ### Constants from the top of audiostream.cpp -/

def ENCODING_PCM_16BIT : Nat := 0x2
def ENCODING_PCM_8BIT : Nat := 0x3
def ENCODING_PCM_FLOAT : Nat := 0x4

def CHANNEL_MASK_MONO : Nat := 0x2
def CHANNEL_MASK_FRONT_LEFT : Nat := 0x4
def CHANNEL_MASK_FRONT_RIGHT : Nat := 0x8
def CHANNEL_MASK_FRONT_CENTER : Nat := 0x10
def CHANNEL_MASK_LOW_FREQUENCY : Nat := 0x20
def CHANNEL_MASK_BACK_LEFT : Nat := 0x40
def CHANNEL_MASK_BACK_RIGHT : Nat := 0x80
def CHANNEL_MASK_FRONT_LEFT_OF_CENTER : Nat := 0x100
def CHANNEL_MASK_FRONT_RIGHT_OF_CENTER : Nat := 0x200
def CHANNEL_MASK_BACK_CENTER : Nat := 0x400
def CHANNEL_MASK_SIDE_LEFT : Nat := 0x800
def CHANNEL_MASK_SIDE_RIGHT : Nat := 0x1000

/-- NdkMediaCodec.h: `AMEDIACODEC_BUFFER_FLAG_END_OF_STREAM = 4`. -/
def AMEDIACODEC_BUFFER_FLAG_END_OF_STREAM : Nat := 4

/-! ### AkAudioCaps enums (external header, only the values this file uses
plus representatives of the remaining, unmapped values) -/

/-- `AkAudioCaps::SampleFormat`.  The C++ enum has more members; the three
the table maps (`u8`, `s16`, `flt`) are exact, the others stand for "any
other value". -/
inductive SampleFormat where
  | none
  | s8
  | u8
  | s16
  | s32
  | s64
  | flt
  | dbl
  deriving DecidableEq, Repr

/-- `AkAudioCaps::Position`.  The eleven positions appearing in
`channelMaskToPosition` are exact; `topCenter`, `topFrontLeft` and
`unknown` represent positions absent from the lookup table. -/
inductive Position where
  | frontLeft
  | frontRight
  | frontCenter
  | lowFrequency1
  | backLeft
  | backRight
  | frontLeftOfCenter
  | frontRightOfCenter
  | backCenter
  | sideLeft
  | sideRight
  | topCenter
  | topFrontLeft
  | unknown
  deriving DecidableEq, Repr

/-! ### QMap access patterns

`QMap` iterates in ascending key order.  `QMap::value k` returns the
mapped value or a default-constructed one (`int32_t() = 0`) when `k` is
absent; `QMap::key v` returns the FIRST key (smallest, by iteration
order) mapped to `v`, or a default-constructed key (`0`) when no entry
has value `v`. -/

/-- `QMap<K, int32_t>::value`: mapped value, or `0` when absent. -/
def qmapValue {K : Type} [DecidableEq K] (m : List (K × Nat)) (k : K) : Nat :=
  match m.find? (fun e => decide (e.1 = k)) with
  | some e => e.2
  | none => 0

/-- `QMap<int32_t, V>::key`: first key mapped to `v`, or `0` when no
entry has value `v`. -/
def qmapKey {V : Type} [DecidableEq V] (m : List (Nat × V)) (v : V) : Nat :=
  match m.find? (fun e => decide (e.2 = v)) with
  | some e => e.1
  | none => 0

/-- Forward lookup in a `QMap<int32_t, V>` (`QMap::value` as `Option`),
used to state reconstruction of positions from mask bits. -/
def qmapLookup {V : Type} (m : List (Nat × V)) (k : Nat) : Option V :=
  match m.find? (fun e => decide (e.1 = k)) with
  | some e => some e.2
  | none => Option.none

/-- The static `channelMaskToPosition` table, in `QMap`'s ascending-key
order.  Note `0x2` (mono) and `0x10` (front center) both map to
`Position.frontCenter`, exactly as in the source. -/
def channelMaskToPositionList : List (Nat × Position) :=
  [(CHANNEL_MASK_MONO, Position.frontCenter),
   (CHANNEL_MASK_FRONT_LEFT, Position.frontLeft),
   (CHANNEL_MASK_FRONT_RIGHT, Position.frontRight),
   (CHANNEL_MASK_FRONT_CENTER, Position.frontCenter),
   (CHANNEL_MASK_LOW_FREQUENCY, Position.lowFrequency1),
   (CHANNEL_MASK_BACK_LEFT, Position.backLeft),
   (CHANNEL_MASK_BACK_RIGHT, Position.backRight),
   (CHANNEL_MASK_FRONT_LEFT_OF_CENTER, Position.frontLeftOfCenter),
   (CHANNEL_MASK_FRONT_RIGHT_OF_CENTER, Position.frontRightOfCenter),
   (CHANNEL_MASK_BACK_CENTER, Position.backCenter),
   (CHANNEL_MASK_SIDE_LEFT, Position.sideLeft),
   (CHANNEL_MASK_SIDE_RIGHT, Position.sideRight)]

/-- The static `encodingFromSampleFormat` table. -/
def encodingFromSampleFormatList : List (SampleFormat × Nat) :=
  [(SampleFormat.u8, ENCODING_PCM_8BIT),
   (SampleFormat.s16, ENCODING_PCM_16BIT),
   (SampleFormat.flt, ENCODING_PCM_FLOAT)]

/-- `AudioStream::encodingFromSampleFormat`: `QMap::value` on the static
table (so an unsupported format yields the default-constructed `0`). -/
def encodingFromSampleFormat (format : SampleFormat) : Nat :=
  qmapValue encodingFromSampleFormatList format

/-- The per-position summand `channelMaskToPosition().key(position)` of
`AudioStream::channelMaskFromLayout`. -/
def positionMask (position : Position) : Nat :=
  qmapKey channelMaskToPositionList position

/-- `AudioStream::channelMaskFromLayout`.  A layout is modelled as the
list `AkAudioCaps::positions(layout)` of its positions. -/
def channelMaskFromLayout (layout : List Position) : Nat :=
  layout.foldl (fun mask position => mask ||| positionMask position) 0

/-! ### Frames and packets -/

/-- `AkAudioPacket` (valid case): sample bytes, presentation timestamp
and a rational timebase.  A default-constructed (invalid) packet, which
tests false in C++, is represented as `Option.none` at use sites. -/
structure AkAudioPacket where
  samples : List Nat
  pts : Int
  timeBase : Rat
  deriving DecidableEq, Repr

/-- `AkPacket` as assembled by `AudioStreamPrivate::readPacket`. -/
structure AkPacket where
  buffer : List Nat
  pts : Int
  timeBase : Rat
  index : Nat
  id : Nat
  deriving DecidableEq, Repr

/-- Modelled from the spec: `AkAudioPacket::operator+=` (its source is
outside this repository slice).  Accumulation semantics from the spec:
appending onto existing content concatenates the sample data
(time-ordered), keeping the first frame's timestamp and timebase. -/
def audioPacketAppend (a b : AkAudioPacket) : AkAudioPacket :=
  { samples := a.samples ++ b.samples, pts := a.pts, timeBase := a.timeBase }

/-! ### Frame Accumulator

The slot `m_frame` is threaded explicitly: `Option.none` is the
default-constructed (invalid) packet. -/

/-- `AudioStream::convertPacket`, lines 159-162 (the accumulation under
`m_frameMutex`): an invalid converted packet returns early; otherwise
`m_frame += iPacket`, where `+=` on an invalid (empty) left side
replaces it and otherwise concatenates. -/
def deposit (slot : Option AkAudioPacket) (incoming : Option AkAudioPacket) :
    Option AkAudioPacket :=
  match incoming with
  | Option.none => slot
  | some f =>
      match slot with
      | Option.none => some f
      | some g => some (audioPacketAppend g f)

/-- `AudioStream::avPacketDequeue`.  `depositDuringWait` is the oracle
for the bounded wait `m_frameReady.wait(&m_frameMutex, THREAD_WAIT_LIMIT)`:
`some f` means a deposit of `f` arrived (and signalled) inside the wait
window, `Option.none` means the wait timed out, in which case the
function returns a null packet.  Returns `(result, new slot)`; taking a
frame leaves `m_frame` default-constructed (empty). -/
def avPacketDequeue (slot : Option AkAudioPacket)
    (depositDuringWait : Option AkAudioPacket) :
    Option AkAudioPacket × Option AkAudioPacket :=
  match slot with
  | some f => (some f, Option.none)
  | Option.none =>
      match depositDuringWait with
      | Option.none => (Option.none, Option.none)
      | some f => (some f, Option.none)

/-! ### Timestamp arithmetic -/

/-- Exact value of the expression inside Qt's `qRound`:
`d + 0.5` truncated toward zero for `d >= 0`, `d - 0.5` truncated
otherwise — i.e. rounding half away from zero, over exact rationals.
This is the mathematical rounding only; the `int` result type of the
C++ function is applied in `qRound` below. -/
def qRoundExact (x : Rat) : Int :=
  if 0 ≤ x then ⌊x + 1 / 2⌋ else ⌈x - 1 / 2⌉

/-- Qt's `int qRound(double)`.  The result type is a 32-bit `int`:
when the rounded value fits in `[-2^31, 2^31)` the function returns it;
otherwise the double-to-int conversion is undefined behaviour, modelled
as `Option.none` (the program cannot be relied on to produce any
particular value there).  The `double` evaluation of the argument is
modelled as exact rational arithmetic; its floating-point rounding
error is outside the model. -/
def qRound (x : Rat) : Option Int :=
  if -(2 ^ 31) ≤ qRoundExact x ∧ qRoundExact x < 2 ^ 31 then
    some (qRoundExact x)
  else
    Option.none

/-- The `int` value `qRound(1e6 * packet.pts() * packet.timeBase().value())`
computed on lines 204-205 of `AudioStream::encodeData`; `Option.none`
when the conversion of the rounded `double` to `int` is undefined
behaviour. -/
def presentationTimeUs (packet : AkAudioPacket) : Option Int :=
  qRound ((1000000 : Rat) * (packet.pts : Rat) * packet.timeBase)

/-- The timestamp actually passed to `AMediaCodec_queueInputBuffer`:
the source converts the 32-bit `int` result of `qRound` with
`uint64_t(...)`, i.e. reduces a value of `[-2^31, 2^31)` modulo
`2 ^ 64`; undefined (`Option.none`) when the upstream `int` conversion
already was. -/
def submittedPtsUs (packet : AkAudioPacket) : Option Nat :=
  (presentationTimeUs packet).map (fun r => (r % 2 ^ 64).toNat)

/-! ### Packet Assembler -/

/-- `AMediaCodecBufferInfo`: offset, size, presentation time, flags. -/
structure AMediaCodecBufferInfo where
  offset : Nat
  size : Nat
  infoPresentationTimeUs : Int
  flags : Nat
  deriving DecidableEq, Repr

/-- Byte count `readPacket` copies: after
`bufferSize = qMin(bufferSize, size_t(info.size))`, where the first
`bufferSize` is the capacity reported by `AMediaCodec_getOutputBuffer`. -/
def outputReadCount (capacity : Nat) (info : AMediaCodecBufferInfo) : Nat :=
  min capacity info.size

/-- The memory indices `memcpy(oBuffer.data(), data + info.offset,
bufferSize)` reads from the codec's output buffer: `info.offset` up to
`info.offset + bufferSize - 1`. -/
def outputReadIndices (capacity : Nat) (info : AMediaCodecBufferInfo) :
    List Nat :=
  (List.range (outputReadCount capacity info)).map (fun i => info.offset + i)

/-- `AudioStreamPrivate::readPacket` for a non-null output buffer:
`mem` is the codec's memory (a total function — reads past the valid
region return whatever lies there), `capacity` the size reported by
`AMediaCodec_getOutputBuffer`, `streamIndex` the value of
`self->index()`. -/
def readPacket (mem : Nat → Nat) (capacity : Nat)
    (info : AMediaCodecBufferInfo) (streamIndex : Nat) : AkPacket :=
  { buffer := (outputReadIndices capacity info).map mem,
    pts := info.infoPresentationTimeUs,
    timeBase := (1 : Rat) / 1000000,
    index := streamIndex,
    id := 0 }

/-- `AudioStreamPrivate::readPacket` including the null-pointer case:
`bufferSize` is initialised to `0` and `AMediaCodec_getOutputBuffer`
leaves it untouched when it returns a null pointer, so the null case
behaves as a zero-capacity read (the `memcpy` copies zero bytes): the
function still assembles and returns a normal packet, with an empty
payload — there is no error path in the source. -/
def readPacketFromCodec (outputBuffer : Option (Nat → Nat)) (capacity : Nat)
    (info : AMediaCodecBufferInfo) (streamIndex : Nat) : AkPacket :=
  match outputBuffer with
  | Option.none => readPacket (fun _ => 0) 0 info streamIndex
  | some mem => readPacket mem capacity info streamIndex

/-! ### Codec Buffer-Exchange Engine -/

/-- One argument tuple of `AMediaCodec_queueInputBuffer`:
`(index, offset, size, ptsUs, flags)`.  `ptsUs` is the `uint64_t`
timestamp argument; `Option.none` means the value is unspecified by the
model because the upstream double-to-int conversion was undefined
behaviour. -/
structure InputSubmission where
  index : Nat
  offset : Nat
  size : Nat
  ptsUs : Option Nat
  flags : Nat
  deriving DecidableEq, Repr

/-- The codec's responses during one `encodeData` tick:
`dequeueInput` is `Option.none` when `AMediaCodec_dequeueInputBuffer`
returns a negative index within the 5000 timeout; `inputBuffer` is the
capacity reported by `AMediaCodec_getInputBuffer`, `Option.none` when
that call returns a null pointer; `dequeueOutput`, `outputInfo`,
`outputBuffer` and `outputCapacity` describe
`AMediaCodec_dequeueOutputBuffer` / `AMediaCodec_getOutputBuffer`
likewise. -/
structure CodecEnv where
  dequeueInput : Option Nat
  inputBuffer : Option Nat
  dequeueOutput : Option Nat
  outputInfo : AMediaCodecBufferInfo
  outputBuffer : Option (Nat → Nat)
  outputCapacity : Nat

/-- Observable effects of one `AudioStream::encodeData` tick. -/
structure EncodeResult where
  ok : Bool
  newSlot : Option AkAudioPacket
  inputSubmissions : List InputSubmission
  inputCopied : List Nat
  outputReleased : List (Nat × Bool)
  emitted : List AkPacket

/-- Lines 214-226 of `AudioStream::encodeData`: dequeue one output
buffer; when one is ready, read it into a packet, release it back to
the codec (rendering iff `info.size != 0`) and emit the packet. -/
def drainOutput (env : CodecEnv) (streamIndex : Nat) :
    List (Nat × Bool) × List AkPacket :=
  match env.dequeueOutput with
  | Option.none => ([], [])
  | some outIndex =>
      ([(outIndex, env.outputInfo.size ≠ 0)],
       [readPacketFromCodec env.outputBuffer env.outputCapacity
          env.outputInfo streamIndex])

/-- An `EncodeResult` for the early-return (`return false`) paths. -/
def encodeFail (newSlot : Option AkAudioPacket) : EncodeResult :=
  { ok := false, newSlot := newSlot, inputSubmissions := [],
    inputCopied := [], outputReleased := [], emitted := [] }

/-- `AudioStream::encodeData`.  `slot` and `depositDuringWait` feed
`avPacketDequeue`; `env` holds the codec's responses this tick. -/
def encodeData (eos : Bool) (slot : Option AkAudioPacket)
    (depositDuringWait : Option AkAudioPacket) (env : CodecEnv)
    (streamIndex : Nat) : EncodeResult :=
  if eos then
    match env.dequeueInput with
    | Option.none => encodeFail slot
    | some bufferIndex =>
        let drained := drainOutput env streamIndex
        { ok := true, newSlot := slot,
          inputSubmissions :=
            [⟨bufferIndex, 0, 0, some 0, AMEDIACODEC_BUFFER_FLAG_END_OF_STREAM⟩],
          inputCopied := [], outputReleased := drained.1,
          emitted := drained.2 }
  else
    match avPacketDequeue slot depositDuringWait with
    | (Option.none, slot') => encodeFail slot'
    | (some packet, slot') =>
        match env.dequeueInput with
        | Option.none => encodeFail slot'
        | some bufferIndex =>
            match env.inputBuffer with
            | Option.none => encodeFail slot'
            | some capacity =>
                let buffersize := min packet.samples.length capacity
                let drained := drainOutput env streamIndex
                { ok := true, newSlot := slot',
                  inputSubmissions :=
                    [⟨bufferIndex, 0, buffersize, submittedPtsUs packet, 0⟩],
                  inputCopied := packet.samples.take buffersize,
                  outputReleased := drained.1,
                  emitted := drained.2 }

/-! ### Helper lemmas -/

/-- Folding bitwise-or over a list from an accumulator equals the
accumulator or-ed with the combined mask of the mapped elements. -/
theorem foldl_lor_eq_lor_foldr (f : Position → Nat) (l : List Position) (a : Nat) :
    l.foldl (fun mask p => mask ||| f p) a
      = a ||| (l.map f).foldr (fun x y => x ||| y) 0 := by
  induction l generalizing a with
  | nil => simp
  | cons h t ih =>
      simp only [List.foldl_cons, List.map_cons, List.foldr_cons]
      rw [ih, Nat.lor_assoc]

/-- Whenever the half-away-from-zero rounding inside Qt's `qRound`
yields a nonnegative result, it agrees with Mathlib's `round`
(half-up), which is the specification's `round`. -/
theorem qRoundExact_nonneg_eq_round (x : Rat) (h : 0 ≤ qRoundExact x) :
    qRoundExact x = round x := by
  rw [qRoundExact] at h ⊢
  rw [round_eq]
  by_cases hx : 0 ≤ x
  · rw [if_pos hx]
  · rw [if_neg hx] at h ⊢
    push_neg at hx
    have hle : (⌈x - 1/2⌉ : Int) ≤ 0 := Int.ceil_le.mpr (by push_cast; linarith)
    have hz : (⌈x - 1/2⌉ : Int) = 0 := le_antisymm hle h
    have hx2 : (-1 : Rat) < x - 1/2 := by
      have hm := Int.ceil_eq_zero_iff.mp hz
      rw [Set.mem_Ioc] at hm
      exact hm.1
    have hf : ⌊x + 1/2⌋ = 0 := by
      rw [Int.floor_eq_zero_iff, Set.mem_Ico]
      constructor
      · linarith
      · linarith
    rw [hz, hf]

/-! ### Claim C1 — presentation timestamp of submitted frames -/

/-- Claim C1, counterexample: the claim says the timestamp passed to
`AMediaCodec_queueInputBuffer` equals `round(10^6 * pts * timebase)`
for EVERY pts and timebase.  For `pts = -1`, `timebase = 1/48000` the
rounded value is `-21` (well inside the `int` range, so the conversion
is defined), but the source converts the rounded `int` through
`uint64_t(...)`, so the value actually passed is
`2^64 - 21 = 18446744073709551595`, not `-21`. -/
theorem submitted_pts_not_round_counterexample :
    ((encodeData false (some (⟨[0], -1, (1 : Rat)/48000⟩ : AkAudioPacket)) Option.none
        ⟨some 0, some 4, Option.none, ⟨0, 0, 0, 0⟩, Option.none, 0⟩ 0).inputSubmissions.map
        (fun s => s.ptsUs))
      = [some 18446744073709551595]
    ∧ round ((1000000 : Rat) * ((-1 : Int) : Rat) * ((1 : Rat)/48000)) = -21
    ∧ (18446744073709551595 : Int) ≠ -21 := by
  have hexact : qRoundExact ((1000000 : Rat) * ((-1 : Int) : Rat) * ((1 : Rat)/48000))
      = -21 := by
    rw [qRoundExact]
    norm_num
    rw [Int.ceil_eq_iff]
    norm_num
  have hpres : presentationTimeUs (⟨[0], -1, (1 : Rat)/48000⟩ : AkAudioPacket)
      = some (-21) := by
    rw [presentationTimeUs]
    show qRound ((1000000 : Rat) * ((-1 : Int) : Rat) * ((1 : Rat)/48000)) = some (-21)
    rw [qRound, hexact]
    norm_num
  have hsub : submittedPtsUs (⟨[0], -1, (1 : Rat)/48000⟩ : AkAudioPacket)
      = some 18446744073709551595 := by
    rw [submittedPtsUs, hpres]
    rfl
  refine ⟨?_, ?_, by decide⟩
  · rw [encodeData]
    simp [avPacketDequeue]
    simpa using hsub
  · rw [round_eq]
    norm_num

/-- Claim C1, amended: on the normal encode path, whenever the rounding
of the presentation time to a 32-bit `int` is well defined (the rounded
value lies in `[-2^31, 2^31)`, so `presentationTimeUs` is `some r`) and
nonnegative, the timestamp submitted with the frame equals
`round(10^6 * framePts * frameTimebaseValue)` microseconds (the
`double` product modelled as exact rational arithmetic); a negative
in-range rounded value is instead wrapped modulo `2^64` by the
`uint64_t(...)` conversion, and an out-of-range one is undefined
behaviour. -/
theorem submitted_pts_eq_round (f : AkAudioPacket) (dep : Option AkAudioPacket)
    (env : CodecEnv) (si idx cap : Nat) (r : Int)
    (h1 : env.dequeueInput = some idx) (h2 : env.inputBuffer = some cap)
    (h3 : presentationTimeUs f = some r) (h4 : 0 ≤ r) :
    (encodeData false (some f) dep env si).inputSubmissions.map
        (fun s => s.ptsUs.map (fun n => (n : Int)))
      = [some (round ((1000000 : Rat) * (f.pts : Rat) * f.timeBase))] := by
  have hsub : submittedPtsUs f = some ((r % 2 ^ 64).toNat) := by
    rw [submittedPtsUs, h3]
    rfl
  have hr : qRoundExact ((1000000 : Rat) * (f.pts : Rat) * f.timeBase) = r
      ∧ r < 2 ^ 31 := by
    rw [presentationTimeUs, qRound] at h3
    by_cases hc : -(2 ^ 31) ≤ qRoundExact ((1000000 : Rat) * (f.pts : Rat) * f.timeBase)
        ∧ qRoundExact ((1000000 : Rat) * (f.pts : Rat) * f.timeBase) < 2 ^ 31
    · rw [if_pos hc] at h3
      have he := Option.some.inj h3
      exact ⟨he, he ▸ hc.2⟩
    · rw [if_neg hc] at h3
      exact absurd h3 (by simp)
  have hlt : r < 2 ^ 64 := lt_trans hr.2 (by norm_num)
  have hround : r = round ((1000000 : Rat) * (f.pts : Rat) * f.timeBase) := by
    rw [← hr.1]
    exact qRoundExact_nonneg_eq_round _ (hr.1 ▸ h4)
  rw [encodeData]
  simp [avPacketDequeue, h1, h2]
  rw [hsub]
  rw [Int.emod_eq_of_lt h4 hlt]
  simp [Int.toNat_of_nonneg h4]
  exact hround

/-- Claim C1, witness: a frame with `pts = 7` and timebase `1` rounds
to `7000000`, in `int` range, and is submitted with timestamp
`round(10^6 * 7 * 1)`. -/
theorem submitted_pts_eq_round_witness :
    (encodeData false (some (⟨[5], 7, 1⟩ : AkAudioPacket)) Option.none
        ⟨some 2, some 8, Option.none, ⟨0, 0, 0, 0⟩, Option.none, 0⟩ 3).inputSubmissions.map
        (fun s => s.ptsUs.map (fun n => (n : Int)))
      = [some (round ((1000000 : Rat) * ((7 : Int) : Rat) * (1 : Rat)))] :=
  submitted_pts_eq_round ⟨[5], 7, 1⟩ Option.none
    ⟨some 2, some 8, Option.none, ⟨0, 0, 0, 0⟩, Option.none, 0⟩ 3 2 8 7000000 rfl rfl
    (by norm_num [presentationTimeUs, qRound, qRoundExact])
    (by norm_num)

/-! ### Claim C2 — min(L, C) bytes copied and submitted -/

/-- Claim C2: for a frame of length `L` and an input buffer of capacity
`C`, the normal encode path copies exactly the first `min(L, C)` bytes
of the frame and submits exactly that many bytes; when `L > C` exactly
`C` bytes are copied and the tick still succeeds (excess dropped
without error). -/
theorem encode_copies_min (f : AkAudioPacket) (dep : Option AkAudioPacket)
    (env : CodecEnv) (si idx cap : Nat)
    (h1 : env.dequeueInput = some idx) (h2 : env.inputBuffer = some cap) :
    (encodeData false (some f) dep env si).inputCopied
        = f.samples.take (min f.samples.length cap)
    ∧ (encodeData false (some f) dep env si).inputCopied.length
        = min f.samples.length cap
    ∧ (encodeData false (some f) dep env si).inputSubmissions
        = [⟨idx, 0, min f.samples.length cap, submittedPtsUs f, 0⟩]
    ∧ (cap < f.samples.length →
        (encodeData false (some f) dep env si).inputCopied.length = cap
        ∧ (encodeData false (some f) dep env si).ok = true) := by
  have hred : encodeData false (some f) dep env si
      = { ok := true, newSlot := Option.none,
          inputSubmissions :=
            [⟨idx, 0, min f.samples.length cap, submittedPtsUs f, 0⟩],
          inputCopied := f.samples.take (min f.samples.length cap),
          outputReleased := (drainOutput env si).1,
          emitted := (drainOutput env si).2 } := by
    rw [encodeData]
    simp [avPacketDequeue, h1, h2]
  rw [hred]
  refine ⟨rfl, ?_, rfl, ?_⟩
  · simp [List.length_take]
  · intro hlt
    constructor
    · simp [List.length_take]
      omega
    · rfl

/-- Claim C2, witness: frame `[1, 2, 3]` against a capacity-2 buffer
copies exactly `[1, 2]`. -/
theorem encode_copies_min_witness :
    (encodeData false (some (⟨[1, 2, 3], 0, 1⟩ : AkAudioPacket)) Option.none
        ⟨some 0, some 2, Option.none, ⟨0, 0, 0, 0⟩, Option.none, 0⟩ 0).inputCopied
      = [1, 2]
    ∧ (2 : Nat) < 3
    ∧ (encodeData false (some (⟨[1, 2, 3], 0, 1⟩ : AkAudioPacket)) Option.none
        ⟨some 0, some 2, Option.none, ⟨0, 0, 0, 0⟩, Option.none, 0⟩ 0).inputCopied.length
      = 2 :=
  ⟨(encode_copies_min ⟨[1, 2, 3], 0, 1⟩ Option.none
      ⟨some 0, some 2, Option.none, ⟨0, 0, 0, 0⟩, Option.none, 0⟩ 0 0 2 rfl rfl).1,
   by decide,
   ((encode_copies_min ⟨[1, 2, 3], 0, 1⟩ Option.none
      ⟨some 0, some 2, Option.none, ⟨0, 0, 0, 0⟩, Option.none, 0⟩ 0 0 2 rfl rfl).2.2.2
      (by decide)).1⟩

/-! ### Claim C3 — packet assembler read bounds and null buffer -/

/-- Claim C3, counterexample: the claim says the assembler never reads
outside the valid codec output buffer.  With buffer capacity `1` and
metadata `{offset := 1, size := 1}` the single byte read comes from
index `1`, which is outside the valid region `[0, 1)`: the
`memcpy(..., data + info.offset, bufferSize)` bound does not account
for the offset. -/
theorem readPacket_reads_outside_buffer :
    outputReadIndices 1 ⟨1, 1, 0, 0⟩ = [1]
    ∧ ¬ (∀ i ∈ outputReadIndices 1 ⟨1, 1, 0, 0⟩, i < 1) := by decide

/-- Claim C3, amended: the assembler copies exactly
`min(bufferCapacity, metadata.validSize)` bytes, read from the index
range `[offset, offset + min(...))`; when the metadata offset is zero
(as for this claim's overstated-size concern) every read stays inside
the buffer, but a nonzero offset can push reads past its end.  When
the codec returns a null buffer pointer, the reported capacity stays
zero, so zero bytes are copied and a normal packet with an empty
payload is returned — the source has no `CodecBufferUnavailable`
signal. -/
theorem readPacket_bounds (mem : Nat → Nat) (cap : Nat)
    (info : AMediaCodecBufferInfo) (si : Nat) :
    (readPacket mem cap info si).buffer.length = min cap info.size
    ∧ (∀ i ∈ outputReadIndices cap info,
        info.offset ≤ i ∧ i < info.offset + min cap info.size)
    ∧ (info.offset = 0 → ∀ i ∈ outputReadIndices cap info, i < cap)
    ∧ (readPacketFromCodec Option.none cap info si).buffer = [] := by
  refine ⟨?_, ?_, ?_, ?_⟩
  · simp [readPacket, outputReadIndices, outputReadCount]
  · intro i hi
    simp [outputReadIndices, outputReadCount] at hi
    obtain ⟨j, hj, hji⟩ := hi
    omega
  · intro h0 i hi
    simp [outputReadIndices, outputReadCount, h0] at hi
    omega
  · simp [readPacketFromCodec, readPacket, outputReadIndices, outputReadCount]

/-- Claim C3, witness: capacity 3, metadata `{offset := 0, size := 2}`
copies `min 3 2` bytes and every read index is inside the buffer. -/
theorem readPacket_bounds_witness :
    (readPacket (fun _ => 0) 3 ⟨0, 2, 0, 0⟩ 0).buffer.length = min 3 2
    ∧ (∀ i ∈ outputReadIndices 3 ⟨0, 2, 0, 0⟩, i < 3) :=
  ⟨(readPacket_bounds (fun _ => 0) 3 ⟨0, 2, 0, 0⟩ 0).1,
   (readPacket_bounds (fun _ => 0) 3 ⟨0, 2, 0, 0⟩ 0).2.2.1 rfl⟩

/-! ### Claim C4 — accumulator concatenates deposits in order -/

/-- Claim C4: depositing non-empty frame `A` and then frame `B` into
the empty accumulator slot, before any consume, makes a single
consume return the concatenation of `A`'s samples followed by `B`'s
samples and leaves the slot empty. -/
theorem deposit_deposit_consume_concat (A B : AkAudioPacket)
    (_hA : A.samples ≠ []) (_hB : B.samples ≠ []) :
    (avPacketDequeue (deposit (deposit Option.none (some A)) (some B))
        Option.none).1 = some (audioPacketAppend A B)
    ∧ (audioPacketAppend A B).samples = A.samples ++ B.samples
    ∧ (avPacketDequeue (deposit (deposit Option.none (some A)) (some B))
        Option.none).2 = Option.none :=
  ⟨rfl, rfl, rfl⟩

/-- Claim C4, witness: depositing `[1, 2]` then `[3]` and consuming
yields the concatenated frame. -/
theorem deposit_deposit_consume_concat_witness :
    ((⟨[1, 2], 0, 1⟩ : AkAudioPacket).samples ≠ []
    ∧ (avPacketDequeue
        (deposit (deposit Option.none (some (⟨[1, 2], 0, 1⟩ : AkAudioPacket)))
          (some (⟨[3], 0, 1⟩ : AkAudioPacket))) Option.none).1
        = some (audioPacketAppend ⟨[1, 2], 0, 1⟩ ⟨[3], 0, 1⟩)) :=
  ⟨by decide,
   (deposit_deposit_consume_concat ⟨[1, 2], 0, 1⟩ ⟨[3], 0, 1⟩
      (by decide) (by decide)).1⟩

/-! ### Claim C5 — consume on an empty slot times out to "no data" -/

/-- Claim C5: a consume on an empty accumulator slot whose bounded wait
sees no deposit (the wait oracle is `Option.none`, i.e.
`m_frameReady.wait(..., THREAD_WAIT_LIMIT)` timed out) returns a null
packet — a "no data" result, not an error — and leaves the slot
empty.  The wait itself is the bounded `QWaitCondition::wait` call the
oracle models, so the function cannot block past its limit. -/
theorem avPacketDequeue_timeout_no_data :
    avPacketDequeue Option.none Option.none = (Option.none, Option.none) := rfl

/-! ### Claim C6 — end-of-stream path -/

/-- Claim C6: on the end-of-stream path, if no input buffer arrives
within the timeout the tick returns `false` with nothing submitted;
otherwise exactly one zero-length submission carrying
`AMEDIACODEC_BUFFER_FLAG_END_OF_STREAM` is made with no payload copy,
the engine proceeds to the normal output-drain step, and the tick
returns `true` even when no output buffer is ever drained. -/
theorem encode_eos_spec (slot dep : Option AkAudioPacket) (env : CodecEnv)
    (si : Nat) :
    (env.dequeueInput = Option.none →
        (encodeData true slot dep env si).ok = false
        ∧ (encodeData true slot dep env si).inputSubmissions = [])
    ∧ (∀ idx : Nat, env.dequeueInput = some idx →
        (encodeData true slot dep env si).ok = true
        ∧ (encodeData true slot dep env si).inputSubmissions
            = [⟨idx, 0, 0, some 0, AMEDIACODEC_BUFFER_FLAG_END_OF_STREAM⟩]
        ∧ (encodeData true slot dep env si).inputCopied = []
        ∧ ((encodeData true slot dep env si).outputReleased,
            (encodeData true slot dep env si).emitted) = drainOutput env si
        ∧ (env.dequeueOutput = Option.none →
            (encodeData true slot dep env si).emitted = [])) := by
  constructor
  · intro h
    rw [encodeData]
    simp [h, encodeFail]
  · intro idx h
    rw [encodeData]
    simp [h]
    intro hout
    simp [drainOutput, hout]

/-- Claim C6, witness: with input buffer 5 granted and no output buffer
ready, the end-of-stream tick succeeds and submits exactly one
zero-length end-of-stream-flagged buffer. -/
theorem encode_eos_spec_witness :
    (encodeData true Option.none Option.none
        ⟨some 5, Option.none, Option.none, ⟨0, 0, 0, 0⟩, Option.none, 0⟩ 0).ok = true
    ∧ (encodeData true Option.none Option.none
        ⟨some 5, Option.none, Option.none, ⟨0, 0, 0, 0⟩, Option.none, 0⟩ 0).inputSubmissions
        = [⟨5, 0, 0, some 0, AMEDIACODEC_BUFFER_FLAG_END_OF_STREAM⟩] :=
  ⟨((encode_eos_spec Option.none Option.none
      ⟨some 5, Option.none, Option.none, ⟨0, 0, 0, 0⟩, Option.none, 0⟩ 0).2 5 rfl).1,
   ((encode_eos_spec Option.none Option.none
      ⟨some 5, Option.none, Option.none, ⟨0, 0, 0, 0⟩, Option.none, 0⟩ 0).2 5 rfl).2.1⟩

/-! ### Claim C7 — sample-format encoding lookup -/

/-- Claim C7, counterexample: the claim says `encodingForFormat` fails
with `UnsupportedFormat` on any unsupported value; the source instead
returns the `QMap::value` default `0` for such a value (here `s32`),
which is none of the three documented codec constants — no error is
raised. -/
theorem encodingFromSampleFormat_unsupported_counterexample :
    encodingFromSampleFormat SampleFormat.s32 = 0
    ∧ (0 : Nat) ≠ ENCODING_PCM_8BIT
    ∧ (0 : Nat) ≠ ENCODING_PCM_16BIT
    ∧ (0 : Nat) ≠ ENCODING_PCM_FLOAT := by decide

/-- Claim C7, amended: `encodingFromSampleFormat` returns the
documented codec constant for each of the three supported formats, and
returns the default-constructed value `0` — with no error signalled —
for every other format. -/
theorem encodingFromSampleFormat_spec :
    encodingFromSampleFormat SampleFormat.u8 = ENCODING_PCM_8BIT
    ∧ encodingFromSampleFormat SampleFormat.s16 = ENCODING_PCM_16BIT
    ∧ encodingFromSampleFormat SampleFormat.flt = ENCODING_PCM_FLOAT
    ∧ ∀ f : SampleFormat, f ≠ SampleFormat.u8 → f ≠ SampleFormat.s16 →
        f ≠ SampleFormat.flt → encodingFromSampleFormat f = 0 := by
  refine ⟨by decide, by decide, by decide, ?_⟩
  intro f h1 h2 h3
  cases f
  all_goals first
    | exact absurd rfl h1
    | exact absurd rfl h2
    | exact absurd rfl h3
    | decide

/-- Claim C7, witness: `dbl` is unsupported and maps to the default
`0`. -/
theorem encodingFromSampleFormat_spec_witness :
    encodingFromSampleFormat SampleFormat.dbl = 0 :=
  encodingFromSampleFormat_spec.2.2.2 SampleFormat.dbl
    (by decide) (by decide) (by decide)

/-! ### Claim C8 — channel mask is the bitwise or of position masks -/

/-- Claim C8: for every layout, `channelMaskFromLayout` equals the
bitwise or of the per-position codec values (the `QMap::key` reverse
lookup of the table); a position absent from the table contributes the
default `0` (silently ignored); and the function is pure, so repeated
calls yield the same mask. -/
theorem channelMaskFromLayout_or_of_positionMasks (layout : List Position) :
    channelMaskFromLayout layout
        = (layout.map positionMask).foldr (fun x y => x ||| y) 0
    ∧ (∀ p : Position,
        channelMaskToPositionList.find? (fun e => decide (e.2 = p)) = Option.none →
        positionMask p = 0)
    ∧ channelMaskFromLayout layout = channelMaskFromLayout layout := by
  refine ⟨?_, ?_, rfl⟩
  · rw [channelMaskFromLayout, foldl_lor_eq_lor_foldr]
    simp
  · intro p hp
    rw [positionMask, qmapKey, hp]

/-- Claim C8, witness: `topCenter` is absent from the table and
contributes `0`; a stereo layout's mask is the or of its two position
masks. -/
theorem channelMaskFromLayout_or_of_positionMasks_witness :
    positionMask Position.topCenter = 0
    ∧ channelMaskFromLayout [Position.frontLeft, Position.frontRight]
        = ([Position.frontLeft, Position.frontRight].map positionMask).foldr
            (fun x y => x ||| y) 0 :=
  ⟨(channelMaskFromLayout_or_of_positionMasks []).2.1 Position.topCenter (by decide),
   (channelMaskFromLayout_or_of_positionMasks
      [Position.frontLeft, Position.frontRight]).1⟩

/-! ### Claim C9 — per-bit structure of the mask table -/

/-- Claim C9, counterexample: the claim says distinct bits map to
distinct positions, but the table maps both `CHANNEL_MASK_MONO`
(`0x2`) and `CHANNEL_MASK_FRONT_CENTER` (`0x10`) to
`Position.frontCenter`, so the per-bit mapping is not injective. -/
theorem channelMask_bits_not_injective :
    qmapLookup channelMaskToPositionList CHANNEL_MASK_MONO
      = some Position.frontCenter
    ∧ qmapLookup channelMaskToPositionList CHANNEL_MASK_FRONT_CENTER
      = some Position.frontCenter
    ∧ CHANNEL_MASK_MONO ≠ CHANNEL_MASK_FRONT_CENTER := by decide

/-- Claim C9, amended: every bit in the table maps to exactly one
position (the keys are pairwise distinct, and looking up any table
entry's bit recovers exactly its position, so positions can be
reconstructed bit by bit from a mask), but distinct bits do not always
map to distinct positions: the mono bit and the front-center bit share
`Position.frontCenter`. -/
theorem channelMask_table_functional :
    (channelMaskToPositionList.map Prod.fst).Nodup
    ∧ (channelMaskToPositionList.all
        (fun e => decide (qmapLookup channelMaskToPositionList e.1 = some e.2)))
    ∧ qmapLookup channelMaskToPositionList CHANNEL_MASK_MONO
        = qmapLookup channelMaskToPositionList CHANNEL_MASK_FRONT_CENTER := by decide

/-! ### Claim C10 — consumed frame is discarded on input-buffer failure -/

/-- Claim C10: on the normal encode path, when a frame has been
consumed from the accumulator but the codec yields no input buffer
within the timeout (or a null input-buffer pointer), the tick returns
`false`, nothing is submitted or copied, and the consumed frame is
discarded: the accumulator slot is left empty, so the frame is not
resubmitted on a later tick. -/
theorem encode_input_unavailable_discards_frame (f : AkAudioPacket)
    (dep : Option AkAudioPacket) (env : CodecEnv) (si : Nat)
    (h : env.dequeueInput = Option.none ∨ env.inputBuffer = Option.none) :
    (encodeData false (some f) dep env si).ok = false
    ∧ (encodeData false (some f) dep env si).newSlot = Option.none
    ∧ (encodeData false (some f) dep env si).inputSubmissions = []
    ∧ (encodeData false (some f) dep env si).inputCopied = []
    ∧ (encodeData false (some f) dep env si).emitted = [] := by
  rcases h with h | h
  · rw [encodeData]
    simp [avPacketDequeue, h, encodeFail]
  · rw [encodeData]
    cases hin : env.dequeueInput with
    | none => simp [avPacketDequeue, hin, encodeFail]
    | some idx => simp [avPacketDequeue, hin, h, encodeFail]

/-- Claim C10, witness: input dequeue times out while the slot held a
frame; the tick fails and the slot is left empty. -/
theorem encode_input_unavailable_discards_frame_witness :
    (encodeData false (some (⟨[9], 0, 1⟩ : AkAudioPacket)) Option.none
        ⟨Option.none, Option.none, Option.none, ⟨0, 0, 0, 0⟩, Option.none, 0⟩ 0).ok = false
    ∧ (encodeData false (some (⟨[9], 0, 1⟩ : AkAudioPacket)) Option.none
        ⟨Option.none, Option.none, Option.none, ⟨0, 0, 0, 0⟩, Option.none, 0⟩ 0).newSlot
        = Option.none :=
  ⟨(encode_input_unavailable_discards_frame ⟨[9], 0, 1⟩ Option.none
      ⟨Option.none, Option.none, Option.none, ⟨0, 0, 0, 0⟩, Option.none, 0⟩ 0
      (Or.inl rfl)).1,
   (encode_input_unavailable_discards_frame ⟨[9], 0, 1⟩ Option.none
      ⟨Option.none, Option.none, Option.none, ⟨0, 0, 0, 0⟩, Option.none, 0⟩ 0
      (Or.inl rfl)).2.1⟩

end AudioStreamModel
